import Mathlib

/-!
Verification of the wiki-summarization pipeline (`wiki_summarize.py`, `server.py`).

Strings are embedded as `List Char` (Python `str` is a sequence of code
points).  Network effects — the MediaWiki page reads, the sleeps of the retry
loop, the OpenAI completion call — are modelled by explicit oracles supplied
as parameters, and every observable effect (connection attempts, page reads,
sleeps, model calls, stdout/stderr lines) is recorded in the returned value.
Sleep durations are rationals (Python floats carry no rounding-relevant
arithmetic here: only products `backoff * 2^i` occur).
-/

namespace WikiSum

abbrev Str := List Char

/-- Python `needle.isPrefixOf hay`-style check: `startsWith n h` is true iff
`n` is an initial segment of `h`. -/
def startsWith : Str → Str → Bool
  | [], _ => true
  | _ :: _, [] => false
  | a :: as, b :: bs => a = b && startsWith as bs

/-- Python substring test `needle in hay`. -/
def hasSub (needle : Str) : Str → Bool
  | [] => startsWith needle []
  | c :: rest => startsWith needle (c :: rest) || hasSub needle rest

/-- Python truthiness of an optional string: `None` and `""` are falsy. -/
def truthy : Option Str → Bool
  | none => false
  | some s => !s.isEmpty

/-- Python `a or b` on optional strings: yields `a` when truthy, else `b`. -/
def pyOr (a b : Option Str) : Option Str :=
  if truthy a then a else b

/-- Python `str.strip()`: remove leading and trailing whitespace. -/
def pyStrip (s : Str) : Str :=
  ((s.dropWhile Char.isWhitespace).reverse.dropWhile Char.isWhitespace).reverse

/-! Wiki Client Adapter: one `readPage` attempt (body of the retry loop)

The loop body of `fetch_wikitext` reads `site.pages[title]`, checks existence,
resolves at most one redirect hop, reads the text and rejects empty text.
A `WikiResponse` is what the transport delivers on one attempt: either an
exception raised by the mwclient/requests layer (`raises`, with the flag
telling whether its type is one of `APIError`, `InvalidResponse`,
`HTTPError`, `MaximumRetriesExceeded` — the types the first `except` clause
catches), or a page object together with the page object that
`resolve_redirect()` would return. -/

structure PageData where
  pexists : Bool
  name : Str
  isRedirect : Bool
  text : Str
deriving DecidableEq, Repr

inductive WikiResponse where
  | raises (retryable : Bool) (msg : Str)
  | returns (page : PageData) (target : PageData)
deriving DecidableEq, Repr

/-- Message of the missing-page signal, `Страница ... не существует на ...`,
with the title quoted in apostrophes as the f-string does. -/
def missingMsg (title siteHost : Str) : Str :=
  ("Страница \x27").data ++ title ++ ("\x27 не существует на ").data ++ siteHost

/-- Message of the empty-wikitext signal, `Пустой wikitext у страницы ...`,
with the normalized title quoted in apostrophes as the f-string does. -/
def emptyMsg (normTitle : Str) : Str :=
  ("Пустой wikitext у страницы \x27").data ++ normTitle ++ ("\x27").data

/-- Error of one attempt, split by which `except` clause of
`fetch_wikitext` catches it: `retryable` for the transport-exception tuple,
`terminal` for the bare `except Exception` (which `break`s). -/
inductive AttemptErr where
  | retryable (msg : Str)
  | terminal (msg : Str)
deriving DecidableEq, Repr

/-- Body of the `try:` block of `fetch_wikitext` on one attempt. -/
def attemptBody (siteHost title : Str) : WikiResponse → Except AttemptErr (Str × Str)
  | .raises r msg => .error (if r then .retryable msg else .terminal msg)
  | .returns page target =>
    if !page.pexists then
      .error (.terminal (missingMsg title siteHost))
    else
      let normTitle := if page.isRedirect then target.name else page.name
      let p := if page.isRedirect then target else page
      if p.text.isEmpty then
        .error (.terminal (emptyMsg normTitle))
      else
        .ok (normTitle, p.text)

/-! Retry Controller: `fetch_wikitext` -/

/-- Message of the final fault, `Не удалось получить статью ...: ...`,
with the title quoted in apostrophes as the f-string does; `last_err` prints
as `None` when no attempt ran. -/
def finalMsg (title : Str) (lastErr : Option Str) : Str :=
  ("Не удалось получить статью \x27").data ++ title ++ ("\x27: ").data ++
    (match lastErr with | none => ("None").data | some m => m)

/-- Result of `fetch_wikitext` together with its observable effects:
the number of page-read attempts made and the list of sleep durations
performed, in order. -/
structure FetchOutcome where
  value : Except Str (Str × Str)
  attempts : Nat
  sleeps : List ℚ
deriving Repr

/-- The `for i in range(retries)` loop of `fetch_wikitext`, with `fuel`
iterations remaining and `i` the current attempt index.  A retryable fault
sleeps `backoff * 2^i` and continues; any other fault breaks out; falling
off the loop raises the final message built from `last_err`. -/
def fetchLoop (siteHost title : Str) (responses : Nat → WikiResponse) (backoff : ℚ) :
    Nat → Nat → Option Str → FetchOutcome
  | 0, _, lastErr => ⟨.error (finalMsg title lastErr), 0, []⟩
  | fuel + 1, i, _ =>
    match attemptBody siteHost title (responses i) with
    | .ok r => ⟨.ok r, 1, []⟩
    | .error (.retryable m) =>
      let rest := fetchLoop siteHost title responses backoff fuel (i + 1) (some m)
      ⟨rest.value, rest.attempts + 1, backoff * 2 ^ i :: rest.sleeps⟩
    | .error (.terminal m) => ⟨.error (finalMsg title (some m)), 1, []⟩

/-- `fetch_wikitext(site, title, retries=3, backoff=1.0)`: the retry
controller.  `responses i` is what the wiki transport delivers on attempt
`i` (0-based). -/
def fetch_wikitext (siteHost title : Str) (responses : Nat → WikiResponse)
    (retries : Nat := 3) (backoff : ℚ := 1) : FetchOutcome :=
  fetchLoop siteHost title responses backoff retries 0 none

/-! Prompt Builder: `build_prompt` -/

/-- The `"\n…"` appended after truncation. -/
def truncationMarker : Str := ("\n…").data

/-- The fixed template text before `wt`, as a function of the title
(which the f-string interpolates twice). -/
def promptHead (title : Str) : Str :=
  ("Ты — редактор статей. Возьми информацию из большой сложной статьи и сократи её, " ++
   "сделав понятной школьнику 8–9 класса. Сохраняй важные факты, даты, определения. " ++
   "Дай ссылку на исходную статью в формате \x7b\x7bосновная статья|").data ++ title ++
  ("\x7d\x7d. " ++
   "Пиши в wiki-формате (ориентируйся на исходную статью). Для жирного текста используй \x27\x27\x27тут текст\x27\x27\x27. " ++
   "В ответ дай только саму статью без дополнительных комментариев. " ++
   "\n\nИсходная статья: ").data ++ title ++ (":\n").data

/-- The fixed template text after `wt`. -/
def promptTail : Str := ("\n\nСтатья для школьника:\n").data

/-- `build_prompt(wikitext, title)`, with the module-level configuration
value `MAX_WIKITEXT_CHARS` made an explicit parameter `maxChars`. -/
def build_prompt (wikitext title : Str) (maxChars : Nat) : Str :=
  let wt := if wikitext.length ≤ maxChars then wikitext
            else wikitext.take maxChars ++ truncationMarker
  promptHead title ++ wt ++ promptTail

/-! Summarization Orchestrator: `run_summarization` -/

/-- The error taxonomy raised by `run_summarization`: `openaiErr` is
`OpenAIError`, `wikiConnErr` is `WikiConnectionError`, `pageNotFound` is
`PageNotFoundError` (carrying the requested title). -/
inductive SummErr where
  | openaiErr (msg : Str)
  | wikiConnErr (msg : Str)
  | pageNotFound (title : Str)
deriving DecidableEq, Repr

/-- `str(e)` of each taxonomy exception, as its constructor formats it. -/
def renderSummErr : SummErr → Str
  | .openaiErr m => ("Ошибка OpenAI API: ").data ++ m
  | .wikiConnErr m => ("Ошибка соединения с Wiki: ").data ++ m
  | .pageNotFound t => ("Статья \x27").data ++ t ++ ("\x27 не найдена.").data

/-- Message of the `OpenAIError` raised when both key variables are unset. -/
def missingKeyMsg : Str :=
  ("Переменная окружения OPENAI_API_KEY или CHAT_API_KEY не установлена.").data

/-- The substrings `run_summarization` greps for in the fetch failure text. -/
def missingSub : Str := ("не существует").data

def emptySub : Str := ("Пустой wikitext").data

/-- Observable network effects of one `run_summarization` call. -/
structure Trace where
  wikiConnects : Nat
  pageReads : Nat
  sleeps : List ℚ
  modelCalls : Nat
deriving Repr

/-- The environment and external collaborators of one
`run_summarization` call: the two key variables, the outcome of
`connect_wiki` (`mwclient.Site` construction), the behaviour of the wiki
transport per attempt, the OpenAI completion as a function of the prompt
(its result is `resp.choices[0].message.content`), and the configured
`MAX_WIKITEXT_CHARS`. -/
structure World where
  chatApiKey : Option Str
  openaiApiKey : Option Str
  connect : Except Str Unit
  responses : Nat → WikiResponse
  completion : Str → Except Str Str
  maxChars : Nat

/-- `run_summarization(title, site_host, path, model)`.  Returns the
summary (the only success payload of the orchestrator) or the raised taxonomy
error, paired with the trace of network effects. -/
def run_summarization (w : World) (title siteHost path : Str) :
    Except SummErr Str × Trace :=
  let apiKey := pyOr w.chatApiKey w.openaiApiKey
  if truthy apiKey = false then
    (.error (.openaiErr missingKeyMsg), ⟨0, 0, [], 0⟩)
  else
    match w.connect with
    | .error e => (.error (.wikiConnErr e), ⟨1, 0, [], 0⟩)
    | .ok _ =>
      let fr := fetch_wikitext siteHost title w.responses 3 1
      match fr.value with
      | .error msg =>
        if hasSub missingSub msg || hasSub emptySub msg then
          (.error (.pageNotFound title), ⟨1, fr.attempts, fr.sleeps, 0⟩)
        else
          (.error (.wikiConnErr msg), ⟨1, fr.attempts, fr.sleeps, 0⟩)
      | .ok (normTitle, wikitext) =>
        match w.completion (build_prompt wikitext normTitle w.maxChars) with
        | .error e => (.error (.openaiErr e), ⟨1, fr.attempts, fr.sleeps, 1⟩)
        | .ok content => (.ok (pyStrip content), ⟨1, fr.attempts, fr.sleeps, 1⟩)

/-! CLI adapter: `main` -/

/-- Exit code and the lines written to each stream by one `main` run. -/
structure MainResult where
  exitCode : Nat
  stdoutLines : List Str
  stderrLines : List Str
deriving DecidableEq, Repr

/-- What the `try:` block of `main` produced: the summary (with `print`
succeeding), or the exception reaching the `except` chain.  `other` is any
exception outside the three taxonomy classes (the `except Exception`
safety net). -/
inductive TryOutcome where
  | success (summary : Str)
  | pageNotFound (title : Str)
  | wikiConn (msg : Str)
  | openai (msg : Str)
  | other (msg : Str)
deriving DecidableEq, Repr

/-- The failure marker `print(f"❌ {e}")` prepends. -/
def failMarker : Str := ("❌ ").data

/-- The `except` chain of `main`.  Every `print` call targets stdout
(Python `print` without `file=` writes to `sys.stdout`); `sys.exit(n)`
sets the exit code, and falling off the `try:` exits 0. -/
def mainDispatch : TryOutcome → MainResult
  | .success s => ⟨0, [s], []⟩
  | .pageNotFound t => ⟨3, [failMarker ++ renderSummErr (.pageNotFound t)], []⟩
  | .wikiConn m => ⟨2, [failMarker ++ renderSummErr (.wikiConnErr m)], []⟩
  | .openai m => ⟨4, [failMarker ++ renderSummErr (.openaiErr m)], []⟩
  | .other m => ⟨99, [("❌ Неизвестная ошибка: ").data ++ m], []⟩

/-- Which `except` clause of `main` a `run_summarization` outcome hits. -/
def toTryOutcome : Except SummErr Str → TryOutcome
  | .ok s => .success s
  | .error (.pageNotFound t) => .pageNotFound t
  | .error (.wikiConnErr m) => .wikiConn m
  | .error (.openaiErr m) => .openai m

/-- `main()` after argument parsing: run the orchestrator on the parsed
arguments and dispatch its outcome. -/
def mainModel (w : World) (title siteHost path : Str) : MainResult :=
  mainDispatch (toTryOutcome (run_summarization w title siteHost path).1)

/-! HTTP adapter: the `/summarize` endpoint of `server.py` -/

/-- Body of a successful endpoint answer, `SummaryResponse`. -/
structure SummaryResponse where
  title : Str
  summary : Str
deriving DecidableEq, Repr

/-- HTTP outcome: 200 with a body, or an `HTTPException` status + detail. -/
inductive ServerResult where
  | ok (resp : SummaryResponse)
  | httpError (status : Nat) (detail : Str)
deriving DecidableEq, Repr

/-- The `/summarize` handler: calls `run_summarization(title, site, path)`
and translates taxonomy errors to HTTP statuses; on success it answers
with the *requested* query title, not the canonical one. -/
def serverSummarize (w : World) (title site path : Str) : ServerResult :=
  match (run_summarization w title site path).1 with
  | .ok s => .ok ⟨title, s⟩
  | .error (.pageNotFound _) => .httpError 404 (("Статья не найдена").data)
  | .error (.wikiConnErr m) =>
      .httpError 502 (("Ошибка подключения к Wiki: ").data ++ renderSummErr (.wikiConnErr m))
  | .error (.openaiErr m) =>
      .httpError 500 (("Ошибка OpenAI API: ").data ++ renderSummErr (.openaiErr m))

/-! Draft Publisher: `publish_draft` -/

/-- The target page before the save: `none` when it does not exist yet. -/
structure PageState where
  content : Option Str
deriving DecidableEq, Repr

/-- Save-time exceptions, split by the `except` clauses of
`publish_draft`: `ProtectedPageError`, `InsufficientPermission`,
`APIError` (carrying its `code`), anything else. -/
inductive SaveErr where
  | protectedPage (msg : Str)
  | insufficient (msg : Str)
  | api (code msg : Str)
  | other (msg : Str)
deriving DecidableEq, Repr

/-- Modelled from the spec: the `mwclient` operation `page.save` honouring the
`createonly` flag is not part of the sources of this repository.  Per §4.5 and
§6 of the spec, a save with `createonly` against an existing page must
fail rather than overwrite (the MediaWiki API answers with an `APIError`
whose code is `articleexists`) and leaves the page untouched; in every
other situation the external outcome `otherwise` decides, and only a
successful save replaces the page content. -/
def savePage (st : PageState) (content : Str) (createonly : Bool)
    (otherwise : Except SaveErr Unit) : Except SaveErr Unit × PageState :=
  if createonly && st.content.isSome then
    (.error (.api ("articleexists").data (("articleexists").data)), st)
  else
    match otherwise with
    | .ok _ => (.ok (), ⟨some content⟩)
    | .error e => (.error e, st)

/-- Environment and collaborators of one `publish_draft` call. -/
structure PublishWorld where
  envUsername : Option Str
  envPassword : Option Str
  login : Except Str Unit
  pageState : PageState
  saveOther : Except SaveErr Unit

/-- `publish_draft(content, article_title, ..., overwrite=...)`.  Returns
the saved page name or the raised `RuntimeError` message (the PublishFault
of the taxonomy), paired with the page state after the call. -/
def publish_draft (w : PublishWorld) (content articleTitle : Str)
    (username password : Option Str) (overwrite : Bool) :
    Except Str Str × PageState :=
  let user := pyOr username w.envUsername
  let pass := pyOr password w.envPassword
  if truthy user = false ∨ truthy pass = false then
    (.error (("Не заданы креды: WIKI_USERNAME / WIKI_PASSWORD").data), w.pageState)
  else
    match w.login with
    | .error e => (.error (("Логин не удался: ").data ++ e), w.pageState)
    | .ok _ =>
      let pageTitle :=
        ("Участник:").data ++ user.getD [] ++ ("/Черновик/").data ++ articleTitle
      match savePage w.pageState content (!overwrite) w.saveOther with
      | (.ok _, st) => (.ok pageTitle, st)
      | (.error (.protectedPage m), st) =>
          (.error (("Страница защищена от записи: ").data ++ m), st)
      | (.error (.insufficient m), st) =>
          (.error (("Недостаточно прав для правки: ").data ++ m), st)
      | (.error (.api code m), st) =>
          if code ≠ [] ∧ hasSub (("captcha").data) (code.map Char.toLower) then
            (.error (("Правка требует CAPTCHA (используйте бот-пароль с правом edit/skipcaptcha).").data), st)
          else
            (.error (("Ошибка API при сохранении: ").data ++ m), st)
      | (.error (.other m), st) =>
          (.error (("Не удалось сохранить страницу: ").data ++ m), st)

/-! Helper lemmas on the substring test -/

theorem startsWith_self_append (n b : Str) : startsWith n (n ++ b) = true := by
  induction n with
  | nil => rfl
  | cons c cs ih => simp [startsWith, ih]

theorem hasSub_of_startsWith {n h : Str} (hs : startsWith n h = true) :
    hasSub n h = true := by
  cases h with
  | nil => simpa [hasSub] using hs
  | cons c rest => simp [hasSub, hs]

theorem hasSub_append_left {n : Str} (a : Str) {h : Str}
    (hh : hasSub n h = true) : hasSub n (a ++ h) = true := by
  induction a with
  | nil => simpa using hh
  | cons c cs ih => simp [hasSub, ih]

theorem hasSub_self_append (n b : Str) : hasSub n (n ++ b) = true :=
  hasSub_of_startsWith (startsWith_self_append n b)

/-- The missing-page message always contains the substring
`не существует` that `run_summarization` greps for. -/
theorem missingSub_in_missingMsg (title siteHost : Str) :
    hasSub missingSub (missingMsg title siteHost) = true := by
  have hdecomp : ("\x27 не существует на ").data =
      ("\x27 ").data ++ missingSub ++ (" на ").data := by decide
  unfold missingMsg
  rw [hdecomp]
  simp only [List.append_assoc]
  exact hasSub_append_left _ (hasSub_append_left title
    (hasSub_append_left _ (hasSub_self_append _ _)))

/-- The empty-wikitext message always contains the substring
`Пустой wikitext` that `run_summarization` greps for. -/
theorem emptySub_in_emptyMsg (normTitle : Str) :
    hasSub emptySub (emptyMsg normTitle) = true := by
  have hdecomp : ("Пустой wikitext у страницы \x27").data =
      emptySub ++ (" у страницы \x27").data := by decide
  unfold emptyMsg
  rw [hdecomp, List.append_assoc, List.append_assoc]
  exact hasSub_self_append _ _

/-- The final fault message of `fetch_wikitext` contains whatever the last
attempt error message contains. -/
theorem hasSub_finalMsg {n cause : Str} (title : Str)
    (hc : hasSub n cause = true) :
    hasSub n (finalMsg title (some cause)) = true := by
  show hasSub n (("Не удалось получить статью \x27").data ++ title ++
    ("\x27: ").data ++ cause) = true
  simp only [List.append_assoc]
  exact hasSub_append_left _ (hasSub_append_left title (hasSub_append_left _ hc))

/-! Sample data used by the concrete witnesses -/

/-- A page object reported as nonexistent. -/
def samplePageMissing : PageData := ⟨false, [], false, []⟩

/-- An existing, non-redirect page named `P` with text `w`. -/
def sampleOkPage : PageData := ⟨true, [('P')], false, [('w')]⟩

/-- An existing page named `A` flagged as a redirect (its own text empty). -/
def sampleRedirectPage : PageData := ⟨true, [('A')], true, []⟩

/-- The redirect target, named `B` with text `w`; itself still flagged as a
redirect, to exhibit that resolution stops after one hop. -/
def sampleTarget : PageData := ⟨true, [('B')], true, [('w')]⟩

/-- Transport behaviour: retryable faults on attempts 0 and 1, a good page
on attempt 2. -/
def sampleResponsesRetry : Nat → WikiResponse :=
  fun i => if i < 2 then .raises true (("boom").data) else .returns sampleOkPage sampleOkPage

/-! Claim theorems -/

/-- C2: with maxAttempts = 3, a retryable transport fault on attempts 1
and 2 and a success on attempt 3 make `fetch_wikitext` return the
successful result after exactly two sleeps of durations `backoff * 1` then
`backoff * 2`, in that order. -/
theorem fetch_retry_retry_success (siteHost title : Str)
    (responses : Nat → WikiResponse) (b : ℚ) (m0 m1 : Str) (r : Str × Str)
    (h0 : attemptBody siteHost title (responses 0) = .error (.retryable m0))
    (h1 : attemptBody siteHost title (responses 1) = .error (.retryable m1))
    (h2 : attemptBody siteHost title (responses 2) = .ok r) :
    fetch_wikitext siteHost title responses 3 b = ⟨.ok r, 3, [b * 1, b * 2]⟩ := by
  simp [fetch_wikitext, fetchLoop, h0, h1, h2]

theorem fetch_retry_retry_success_witness :
    fetch_wikitext (("s").data) (("T").data) sampleResponsesRetry 3 1 =
      ⟨.ok ((("P").data), (("w").data)), 3, [1 * 1, 1 * 2]⟩ :=
  fetch_retry_retry_success (("s").data) (("T").data) sampleResponsesRetry 1
    (("boom").data) (("boom").data) ((("P").data), (("w").data)) rfl rfl rfl

/-- C3: a non-retryable fault on the first attempt makes `fetch_wikitext`
abort at once: one attempt, no sleep, and the final fault carries that
cause. -/
theorem fetch_terminal_aborts (siteHost title : Str)
    (responses : Nat → WikiResponse) (b : ℚ) (retries : Nat) (m : Str)
    (hr : 0 < retries)
    (h0 : attemptBody siteHost title (responses 0) = .error (.terminal m)) :
    fetch_wikitext siteHost title responses retries b =
      ⟨.error (finalMsg title (some m)), 1, []⟩ := by
  obtain ⟨n, rfl⟩ := Nat.exists_eq_succ_of_ne_zero (Nat.pos_iff_ne_zero.mp hr)
  simp [fetch_wikitext, fetchLoop, h0]

theorem fetch_terminal_aborts_witness :
    fetch_wikitext (("s").data) (("T").data) (fun _ => .raises false (("x").data)) 3 1 =
      ⟨.error (finalMsg (("T").data) (some (("x").data))), 1, []⟩ :=
  fetch_terminal_aborts (("s").data) (("T").data) _ 1 3 (("x").data)
    (by decide) rfl

/-- C7: an existing page flagged as a redirect resolves to the target page:
the attempt returns the name and text of the target `T`, never the
original page object, and exactly one hop is taken — the target is used
as-is even when it is itself flagged as a redirect (no hypothesis below
constrains `target.isRedirect`). -/
theorem readPage_redirect_one_hop (siteHost title : Str) (page target : PageData)
    (hex : page.pexists = true) (hred : page.isRedirect = true)
    (htext : target.text ≠ []) :
    attemptBody siteHost title (.returns page target) =
      .ok (target.name, target.text) := by
  simp [attemptBody, hex, hred, List.isEmpty_iff, htext]

theorem readPage_redirect_one_hop_witness :
    attemptBody (("s").data) (("A").data) (.returns sampleRedirectPage sampleTarget) =
      .ok ((("B").data), (("w").data)) :=
  readPage_redirect_one_hop (("s").data) (("A").data) sampleRedirectPage sampleTarget
    rfl rfl (by decide)

/-- Invariant of the retry loop: with `fuel` iterations left starting at
attempt index `i`, at most `fuel` further attempts run and the further
sleeps sum to at most `b * 2^i * (2^fuel - 1)`. -/
theorem fetchLoop_bound (siteHost title : Str) (responses : Nat → WikiResponse)
    (b : ℚ) (hb : 0 ≤ b) :
    ∀ fuel i lastErr,
      (fetchLoop siteHost title responses b fuel i lastErr).attempts ≤ fuel ∧
      (fetchLoop siteHost title responses b fuel i lastErr).sleeps.sum ≤
        b * 2 ^ i * (2 ^ fuel - 1) := by
  intro fuel
  induction fuel with
  | zero =>
    intro i lastErr
    simp [fetchLoop]
  | succ fuel ih =>
    intro i lastErr
    have hpow : (0:ℚ) ≤ b * 2 ^ i := by positivity
    have hone : (1:ℚ) ≤ 2 ^ (fuel + 1) := one_le_pow₀ (by norm_num)
    cases hab : attemptBody siteHost title (responses i) with
    | ok r =>
      refine ⟨?_, ?_⟩ <;> simp [fetchLoop, hab] <;> nlinarith
    | error e =>
      cases e with
      | terminal m =>
        refine ⟨?_, ?_⟩ <;> simp [fetchLoop, hab] <;> nlinarith
      | retryable m =>
        have hrest := ih (i + 1) (some m)
        refine ⟨?_, ?_⟩ <;> simp [fetchLoop, hab]
        · exact hrest.1
        · have e : b * 2 ^ (i + 1) * ((2:ℚ) ^ fuel - 1) + b * 2 ^ i =
              b * 2 ^ i * (2 ^ (fuel + 1) - 1) := by
            rw [pow_succ, pow_succ]
            ring
          have := hrest.2
          linarith

/-- C4: `fetch_wikitext` makes at most `retries` page-read attempts, and
the sleep durations it performs sum to at most
`backoff * (2^retries - 1)`, the exhaustion case included. -/
theorem fetch_attempts_sleep_bound (siteHost title : Str)
    (responses : Nat → WikiResponse) (retries : Nat) (b : ℚ) (hb : 0 ≤ b) :
    (fetch_wikitext siteHost title responses retries b).attempts ≤ retries ∧
    (fetch_wikitext siteHost title responses retries b).sleeps.sum ≤
      b * (2 ^ retries - 1) := by
  have h := fetchLoop_bound siteHost title responses b hb retries 0 none
  simpa [fetch_wikitext] using h

theorem fetch_attempts_sleep_bound_witness :
    (fetch_wikitext (("s").data) (("T").data) (fun _ => .raises true (("x").data)) 3 1).attempts ≤ 3 ∧
    (fetch_wikitext (("s").data) (("T").data) (fun _ => .raises true (("x").data)) 3 1).sleeps.sum ≤
      1 * (2 ^ 3 - 1) :=
  fetch_attempts_sleep_bound (("s").data) (("T").data) _ 3 1 (by norm_num)

/-- C5: when the wikitext fits the budget, the prompt is exactly the fixed
template around the unmodified wikitext — in particular no truncation
marker is appended; when it exceeds the budget, the prompt is exactly the
template around the first `maxChars` characters followed by the single
marker `"\n…"`; and the output is identical across calls on identical
inputs (`build_prompt` is a pure function of its three arguments). -/
theorem build_prompt_truncation (wikitext title : Str) (maxChars : Nat) :
    (wikitext.length ≤ maxChars →
      build_prompt wikitext title maxChars =
        promptHead title ++ wikitext ++ promptTail) ∧
    (maxChars < wikitext.length →
      build_prompt wikitext title maxChars =
        promptHead title ++ (wikitext.take maxChars ++ truncationMarker) ++ promptTail) ∧
    (∀ w2 t2 m2, wikitext = w2 → title = t2 → maxChars = m2 →
      build_prompt wikitext title maxChars = build_prompt w2 t2 m2) := by
  refine ⟨fun hle => ?_, fun hgt => ?_, ?_⟩
  · simp [build_prompt, hle]
  · simp [build_prompt, Nat.not_le.mpr hgt]
  · rintro w2 t2 m2 rfl rfl rfl
    rfl

theorem build_prompt_truncation_witness :
    build_prompt [('a')] [('t')] 5 = promptHead [('t')] ++ [('a')] ++ promptTail ∧
    build_prompt [('a'), ('b')] [('t')] 1 =
      promptHead [('t')] ++ ([('a')] ++ truncationMarker) ++ promptTail := by
  constructor
  · exact (build_prompt_truncation [('a')] [('t')] 5).1 (by decide)
  · have h := (build_prompt_truncation [('a'), ('b')] [('t')] 1).2.1 (by decide)
    simpa using h

/-- C6: with both `CHAT_API_KEY` and `OPENAI_API_KEY` unset,
`run_summarization` fails with `OpenAIError` before any network activity:
the trace records no wiki connection, no page read, no sleep and no model
call. -/
theorem run_missing_keys_fails_fast (w : World) (title siteHost path : Str)
    (h1 : w.chatApiKey = none) (h2 : w.openaiApiKey = none) :
    run_summarization w title siteHost path =
      (.error (.openaiErr missingKeyMsg), ⟨0, 0, [], 0⟩) := by
  simp [run_summarization, pyOr, truthy, h1, h2]

/-- A world with no API keys configured. -/
def sampleWorldNoKeys : World :=
  ⟨none, none, .ok (), fun _ => .returns sampleOkPage sampleOkPage,
   fun _ => .ok (("ok").data), 100⟩

theorem run_missing_keys_fails_fast_witness :
    run_summarization sampleWorldNoKeys (("T").data) (("s").data) (("/w/").data) =
      (.error (.openaiErr missingKeyMsg), ⟨0, 0, [], 0⟩) :=
  run_missing_keys_fails_fast sampleWorldNoKeys (("T").data) (("s").data) (("/w/").data)
    rfl rfl

/-- C1: when the fetch fails and its cause is the definitive missing-page
signal or the definitive empty-wikitext signal, `run_summarization` raises
`PageNotFoundError` for the requested title — and in particular never
`WikiConnectionError` — because the final fault text then contains one of
the two substrings the orchestrator greps for. -/
theorem run_missing_empty_pagenotfound (w : World) (title siteHost path cause : Str)
    (hkey : truthy (pyOr w.chatApiKey w.openaiApiKey) = true)
    (hconn : w.connect = .ok ())
    (hfetch : (fetch_wikitext siteHost title w.responses 3 1).value =
      .error (finalMsg title (some cause)))
    (hcause : cause = missingMsg title siteHost ∨ ∃ nt, cause = emptyMsg nt) :
    (run_summarization w title siteHost path).1 = .error (.pageNotFound title) ∧
    ∀ m, (run_summarization w title siteHost path).1 ≠ .error (.wikiConnErr m) := by
  have hsub : (hasSub missingSub (finalMsg title (some cause)) ||
      hasSub emptySub (finalMsg title (some cause))) = true := by
    rcases hcause with h | ⟨nt, h⟩
    · subst h
      simp [hasSub_finalMsg title (missingSub_in_missingMsg title siteHost)]
    · subst h
      simp [hasSub_finalMsg title (emptySub_in_emptyMsg nt)]
  have heq : (run_summarization w title siteHost path).1 = .error (.pageNotFound title) := by
    simp only [run_summarization, hkey, hconn, hfetch, hsub]
    simp
  exact ⟨heq, fun m hcontra => by simp [heq] at hcontra⟩

/-- A world whose wiki reports the requested page as nonexistent on the
first attempt. -/
def sampleWorldMissing : World :=
  ⟨some (("k").data), none, .ok (),
   fun _ => .returns samplePageMissing samplePageMissing,
   fun _ => .ok (("ok").data), 100⟩

theorem run_missing_empty_pagenotfound_witness :
    (run_summarization sampleWorldMissing (("T").data) (("s").data) (("/w/").data)).1 =
      .error (.pageNotFound (("T").data)) :=
  (run_missing_empty_pagenotfound sampleWorldMissing (("T").data) (("s").data)
    (("/w/").data) (missingMsg (("T").data) (("s").data)) rfl rfl rfl (.inl rfl)).1

/-- C8 (amended): the CLI exits 0 on success with the summary on stdout,
3 on `PageNotFoundError`, 2 on `WikiConnectionError`, 4 on `OpenAIError`
and 99 on any unclassified fault; every failure line carries the `❌ `
marker and goes to standard output — `main` writes nothing to standard
error (the original claim placed the failure line on stderr). -/
theorem main_exit_code_mapping (w : World) (title siteHost path : Str) :
    (mainModel w title siteHost path).stderrLines = [] ∧
    (∀ s, (run_summarization w title siteHost path).1 = .ok s →
      mainModel w title siteHost path = ⟨0, [s], []⟩) ∧
    (∀ t, (run_summarization w title siteHost path).1 = .error (.pageNotFound t) →
      mainModel w title siteHost path =
        ⟨3, [failMarker ++ renderSummErr (.pageNotFound t)], []⟩) ∧
    (∀ m, (run_summarization w title siteHost path).1 = .error (.wikiConnErr m) →
      mainModel w title siteHost path =
        ⟨2, [failMarker ++ renderSummErr (.wikiConnErr m)], []⟩) ∧
    (∀ m, (run_summarization w title siteHost path).1 = .error (.openaiErr m) →
      mainModel w title siteHost path =
        ⟨4, [failMarker ++ renderSummErr (.openaiErr m)], []⟩) ∧
    (∀ m, mainDispatch (.other m) =
      ⟨99, [("❌ Неизвестная ошибка: ").data ++ m], []⟩) := by
  refine ⟨?_, ?_, ?_, ?_, ?_, fun m => rfl⟩
  · unfold mainModel
    cases toTryOutcome (run_summarization w title siteHost path).1 <;> rfl
  · intro s h
    simp [mainModel, toTryOutcome, mainDispatch, h]
  · intro t h
    simp [mainModel, toTryOutcome, mainDispatch, h]
  · intro m h
    simp [mainModel, toTryOutcome, mainDispatch, h]
  · intro m h
    simp [mainModel, toTryOutcome, mainDispatch, h]

theorem main_exit_code_mapping_witness :
    mainModel sampleWorldMissing (("T").data) (("s").data) (("/w/").data) =
      ⟨3, [failMarker ++ renderSummErr (.pageNotFound (("T").data))], []⟩ :=
  (main_exit_code_mapping sampleWorldMissing (("T").data) (("s").data)
      (("/w/").data)).2.2.1 (("T").data)
    (run_missing_empty_pagenotfound sampleWorldMissing (("T").data) (("s").data)
      (("/w/").data) (missingMsg (("T").data) (("s").data)) rfl rfl rfl (.inl rfl)).1

/-- C8 (counterexample to the stderr half of the original claim): a
concrete failing run exits with code 3, yet its standard-error stream is
empty and the marked failure line sits on standard output — `main`
prints every message with `print(...)`, which targets stdout. -/
theorem main_stderr_counterexample :
    (mainModel sampleWorldMissing (("T").data) (("s").data) (("/w/").data)).exitCode = 3 ∧
    (mainModel sampleWorldMissing (("T").data) (("s").data) (("/w/").data)).stderrLines = [] ∧
    (mainModel sampleWorldMissing (("T").data) (("s").data) (("/w/").data)).stdoutLines ≠ [] := by
  refine ⟨rfl, rfl, ?_⟩
  decide

/-- C10: whenever the orchestrator succeeds, the HTTP endpoint answers
200 with the *requested* query title in the body — `run_summarization`
hands back only the summary string, so the canonical title can never
reach the endpoint even when redirect resolution changed it. -/
theorem server_title_echo (w : World) (title site path s : Str)
    (h : (run_summarization w title site path).1 = .ok s) :
    serverSummarize w title site path = .ok ⟨title, s⟩ := by
  simp [serverSummarize, h]

/-- A world whose wiki resolves the requested page `A` through a redirect
to the differently-named page `B`, and whose model answers `" s "`. -/
def sampleWorldRedirect : World :=
  ⟨some (("k").data), none, .ok (),
   fun _ => .returns sampleRedirectPage sampleTarget,
   fun _ => .ok ((" s ").data), 100⟩

theorem server_title_echo_witness :
    serverSummarize sampleWorldRedirect (("A").data) (("s").data) (("/w/").data) =
      .ok ⟨(("A").data), (("s").data)⟩ :=
  server_title_echo sampleWorldRedirect (("A").data) (("s").data) (("/w/").data)
    (("s").data) rfl

/-- C9: `publish_draft` with `overwrite=False` against an existing target
page passes `createonly` to the save, so the save fails, the call raises
the PublishFault `RuntimeError` (here the api-error branch, since the
`articleexists` code names no captcha), and the page keeps its previous
content. -/
theorem publish_no_overwrite (w : PublishWorld) (content articleTitle : Str)
    (username password : Option Str)
    (hexists : w.pageState.content.isSome = true)
    (huser : truthy (pyOr username w.envUsername) = true)
    (hpass : truthy (pyOr password w.envPassword) = true)
    (hlogin : w.login = .ok ()) :
    publish_draft w content articleTitle username password false =
      (.error ((("Ошибка API при сохранении: ").data ++ ("articleexists").data)),
        w.pageState) ∧
    ∀ name, (publish_draft w content articleTitle username password false).1 ≠
      .ok name := by
  have heq : publish_draft w content articleTitle username password false =
      (.error ((("Ошибка API при сохранении: ").data ++ ("articleexists").data)),
        w.pageState) := by
    simp only [publish_draft, huser, hpass, hlogin, savePage, hexists,
      Bool.not_false, Bool.true_and, if_true]
    rw [if_neg (by simp)]
    rw [if_neg (by decide)]
  refine ⟨heq, fun name hcontra => ?_⟩
  rw [heq] at hcontra
  simp at hcontra

/-- A publish world whose target draft page already exists. -/
def samplePublishWorld : PublishWorld :=
  ⟨some (("u").data), some (("p").data), .ok (), ⟨some (("old").data)⟩, .ok ()⟩

theorem publish_no_overwrite_witness :
    publish_draft samplePublishWorld (("new").data) (("T").data) none none false =
      (.error ((("Ошибка API при сохранении: ").data ++ ("articleexists").data)),
        ⟨some (("old").data)⟩) :=
  (publish_no_overwrite samplePublishWorld (("new").data) (("T").data) none none
    rfl rfl rfl rfl).1

end WikiSum
